import Mathlib

/-!
Verification development for the Supermal-Karawaci SK-Web-V3 site-settings
pipeline.

The embedding covers:
* `src/lib/settings.ts` — the settings loader: `parseJsonValue`,
  `parseSettingsFromData`, `getDefaultSettings`, `fetchAllSiteSettings`,
  `clearSettingsCache`, and the module-scoped cache / pending-request slots,
  modelled as an explicit state machine over an event alphabet
  (caller invocation, request resolution, cache clear);
* `src/components/SEOInjector.tsx` — `injectIntoBody`, `injectIntoHead` and
  the per-injection-point iteration of the body/head effects;
* `src/components/Analytics.tsx` — `injectScript`.

JavaScript runtime values produced by `JSON.parse` are modelled by the
inductive type `Json`; JavaScript objects are association lists with unique
keys kept in insertion order, and object spread `\x7b...a, ...b\x7d` is
`spreadObj`.  Machine integers stand in for JavaScript numbers; fractional
numeric literals (floating point) are outside the model, so the embedded
`jsonParse` accepts exactly the integer-valued subset of JSON texts.
Timestamps (`Date.now()`) are natural numbers supplied as event parameters.
-/

namespace SKWeb

/-- JavaScript runtime values as produced by `JSON.parse`. -/
inductive Json where
  | null
  | bool (b : Bool)
  | num (n : Int)
  | str (s : String)
  | arr (elems : List Json)
  | obj (fields : List (String × Json))

/-- A JavaScript object: fields with unique keys, in insertion order. -/
abbrev JsObj := List (String × Json)

/-- Property assignment `o[k] = v` on a JavaScript object: an existing key
keeps its position and gets the new value, a fresh key is appended. -/
def objInsert : JsObj → String → Json → JsObj
  | [], k, v => [(k, v)]
  | (k', v') :: rest, k, v =>
    if k' = k then (k, v) :: rest else (k', v') :: objInsert rest k v

/-- Property read `o[k]` on a JavaScript object. -/
def objGet : JsObj → String → Option Json
  | [], _ => none
  | (k', v) :: rest, k => if k' = k then some v else objGet rest k

/-- The own-enumerable entries contributed by spreading a JavaScript value:
objects contribute their fields, strings and arrays contribute index-keyed
entries, primitives contribute nothing. -/
def spreadFields : Json → JsObj
  | Json.obj fs => fs
  | Json.str s => (s.toList.enum).map (fun p => (toString p.1, Json.str (String.mk [p.2])))
  | Json.arr xs => (xs.enum).map (fun p => (toString p.1, p.2))
  | _ => []

/-- Object spread `\x7b ...a, ...b \x7d`: entries of `b` assigned over `a`
in order. -/
def spreadObj (a : JsObj) (b : JsObj) : JsObj :=
  b.foldl (fun acc p => objInsert acc p.1 p.2) a

/-! ### A model of `JSON.parse`

A total recursive-descent parser over the character list of the input,
with fuel bounded by the input length.  It accepts objects, arrays,
strings (with the standard escapes), integer numbers, `true`, `false`
and `null`; a fractional or exponent-bearing number is outside the
integer model and is rejected.  Failure is `none`, modelling the
exception thrown by `JSON.parse` on malformed input. -/

/-- Skip JSON whitespace. -/
def skipWs : List Char → List Char
  | c :: cs =>
    if c = ' ' ∨ c = '\t' ∨ c = '\n' ∨ c = '\r' then skipWs cs else c :: cs
  | [] => []

/-- Value of one hexadecimal digit. -/
def hexDigitVal (c : Char) : Option Nat :=
  if c.isDigit then some (c.toNat - 48)
  else if 'a' ≤ c ∧ c ≤ 'f' then some (c.toNat - 87)
  else if 'A' ≤ c ∧ c ≤ 'F' then some (c.toNat - 55)
  else none

/-- Parse the body of a JSON string after the opening quote, returning the
decoded string and the remaining input. -/
def parseStringBody : Nat → List Char → List Char → Option (String × List Char)
  | 0, _, _ => none
  | _ + 1, _, [] => none
  | fuel + 1, acc, c :: cs =>
    if c = '"' then some (String.mk acc.reverse, cs)
    else if c = '\\' then
      match cs with
      | [] => none
      | e :: cs' =>
        if e = '"' then parseStringBody fuel ('"' :: acc) cs'
        else if e = '\\' then parseStringBody fuel ('\\' :: acc) cs'
        else if e = '/' then parseStringBody fuel ('/' :: acc) cs'
        else if e = 'b' then parseStringBody fuel (Char.ofNat 8 :: acc) cs'
        else if e = 'f' then parseStringBody fuel (Char.ofNat 12 :: acc) cs'
        else if e = 'n' then parseStringBody fuel ('\n' :: acc) cs'
        else if e = 'r' then parseStringBody fuel ('\r' :: acc) cs'
        else if e = 't' then parseStringBody fuel ('\t' :: acc) cs'
        else if e = 'u' then
          match cs' with
          | h1 :: h2 :: h3 :: h4 :: cs'' =>
            match hexDigitVal h1, hexDigitVal h2, hexDigitVal h3, hexDigitVal h4 with
            | some a, some b, some c2, some d =>
              parseStringBody fuel (Char.ofNat (((a * 16 + b) * 16 + c2) * 16 + d) :: acc) cs''
            | _, _, _, _ => none
          | _ => none
        else none
    else parseStringBody fuel (c :: acc) cs

/-- Decimal value of a digit list. -/
def digitsVal (ds : List Char) : Nat :=
  ds.foldl (fun a c => a * 10 + (c.toNat - 48)) 0

/-- Parse a JSON number (integer subset: optional sign, digits, no leading
zeros, no fraction or exponent). -/
def parseNumber (cs : List Char) : Option (Json × List Char) :=
  let neg : Bool := match cs with
    | c :: _ => c = '-'
    | [] => false
  let cs1 := if neg then cs.drop 1 else cs
  let ds := cs1.takeWhile Char.isDigit
  let rest := cs1.dropWhile Char.isDigit
  if ds = [] then none
  else if 1 < ds.length ∧ ds.head? = some '0' then none
  else
    match rest with
    | c :: _ =>
      if c = '.' ∨ c = 'e' ∨ c = 'E' then none
      else some (Json.num (if neg then -(digitsVal ds : Int) else (digitsVal ds : Int)), rest)
    | [] => some (Json.num (if neg then -(digitsVal ds : Int) else (digitsVal ds : Int)), rest)

/-- Consume an expected literal. -/
def dropLit (lit : List Char) (cs : List Char) : Option (List Char) :=
  if cs.take lit.length = lit then some (cs.drop lit.length) else none

mutual

/-- Parse one JSON value. -/
def parseVal : Nat → List Char → Option (Json × List Char)
  | 0, _ => none
  | fuel + 1, cs =>
    match skipWs cs with
    | [] => none
    | c :: rest =>
      if c = 'n' then
        match dropLit ['u', 'l', 'l'] rest with
        | some rest2 => some (Json.null, rest2)
        | none => none
      else if c = 't' then
        match dropLit ['r', 'u', 'e'] rest with
        | some rest2 => some (Json.bool true, rest2)
        | none => none
      else if c = 'f' then
        match dropLit ['a', 'l', 's', 'e'] rest with
        | some rest2 => some (Json.bool false, rest2)
        | none => none
      else if c = '"' then
        match parseStringBody (rest.length + 1) [] rest with
        | some (s, rest2) => some (Json.str s, rest2)
        | none => none
      else if c = '-' ∨ c.isDigit then parseNumber (c :: rest)
      else if c = '\x7b' then
        match skipWs rest with
        | c2 :: rest2 =>
          if c2 = '\x7d' then some (Json.obj [], rest2)
          else parseFields fuel (skipWs rest) []
        | [] => none
      else if c = '[' then
        match skipWs rest with
        | c2 :: rest2 =>
          if c2 = ']' then some (Json.arr [], rest2)
          else parseElems fuel (skipWs rest) []
        | [] => none
      else none

/-- Parse the elements of a non-empty JSON array. -/
def parseElems : Nat → List Char → List Json → Option (Json × List Char)
  | 0, _, _ => none
  | fuel + 1, cs, acc =>
    match parseVal fuel cs with
    | none => none
    | some (v, rest) =>
      match skipWs rest with
      | c :: rest2 =>
        if c = ',' then parseElems fuel rest2 (v :: acc)
        else if c = ']' then some (Json.arr (v :: acc).reverse, rest2)
        else none
      | [] => none

/-- Parse the members of a non-empty JSON object; duplicate keys follow
`JSON.parse` semantics (last value wins, first position kept). -/
def parseFields : Nat → List Char → JsObj → Option (Json × List Char)
  | 0, _, _ => none
  | fuel + 1, cs, acc =>
    match skipWs cs with
    | c :: rest =>
      if c = '"' then
        match parseStringBody (rest.length + 1) [] rest with
        | some (k, rest2) =>
          match skipWs rest2 with
          | c2 :: rest3 =>
            if c2 = ':' then
              match parseVal fuel rest3 with
              | some (v, rest4) =>
                match skipWs rest4 with
                | c3 :: rest5 =>
                  if c3 = ',' then parseFields fuel rest5 (objInsert acc k v)
                  else if c3 = '\x7d' then some (Json.obj (objInsert acc k v), rest5)
                  else none
                | [] => none
              | none => none
            else none
          | [] => none
        | none => none
      else none
    | [] => none

end

/-- `JSON.parse` on a whole input string: one value, then only trailing
whitespace; `none` models the thrown `SyntaxError`. -/
def jsonParse (s : String) : Option Json :=
  match parseVal (s.length + 1) s.toList with
  | some (v, rest) => if skipWs rest = [] then some v else none
  | none => none

/-! ### Default group objects (`src/lib/settings.ts`) -/

/-- `DEFAULT_SEO` from `settings.ts`, as a JavaScript object. -/
def DEFAULT_SEO : JsObj := [
  ("meta_title", Json.str "Supermal Karawaci"),
  ("meta_description", Json.str "Shopping Mall in Tangerang"),
  ("meta_keywords", Json.str ""),
  ("og_title", Json.str ""),
  ("og_description", Json.str ""),
  ("og_image_url", Json.str ""),
  ("og_type", Json.str "website"),
  ("twitter_card", Json.str "summary_large_image"),
  ("twitter_site", Json.str ""),
  ("twitter_creator", Json.str ""),
  ("canonical_url", Json.str "https://supermalkarawaci.co.id"),
  ("robots", Json.str "index, follow"),
  ("google_site_verification", Json.str ""),
  ("bing_site_verification", Json.str "")
]

/-- `DEFAULT_ANALYTICS` from `settings.ts`. -/
def DEFAULT_ANALYTICS : JsObj := [
  ("google_analytics_id", Json.str ""),
  ("google_tag_manager_id", Json.str ""),
  ("meta_pixel_id", Json.str ""),
  ("tiktok_pixel_id", Json.str ""),
  ("hotjar_id", Json.str "")
]

/-- `DEFAULT_GENERAL` from `settings.ts`. -/
def DEFAULT_GENERAL : JsObj := [
  ("site_name", Json.str "Supermal Karawaci"),
  ("site_tagline", Json.str ""),
  ("site_description", Json.str ""),
  ("logo_url", Json.str ""),
  ("logo_dark_url", Json.str ""),
  ("favicon_url", Json.str ""),
  ("default_language", Json.str "id"),
  ("timezone", Json.str "Asia/Jakarta")
]

/-- `DEFAULT_CONTACT` from `settings.ts`. -/
def DEFAULT_CONTACT : JsObj := [
  ("address", Json.str ""),
  ("phone", Json.str ""),
  ("email", Json.str ""),
  ("whatsapp", Json.str ""),
  ("google_maps_embed", Json.str ""),
  ("latitude", Json.str ""),
  ("longitude", Json.str "")
]

/-- `DEFAULT_SOCIAL` from `settings.ts`. -/
def DEFAULT_SOCIAL : JsObj := [
  ("facebook", Json.str ""),
  ("instagram", Json.str ""),
  ("twitter", Json.str ""),
  ("youtube", Json.str ""),
  ("tiktok", Json.str ""),
  ("linkedin", Json.str "")
]

/-! ### Row shape and settings bundle (`src/lib/settings.ts`) -/

/-- One `site_settings` row as consumed by `parseSettingsFromData`.
Optional columns are `Option`; `value` is `string | null`. -/
structure Row where
  key : String
  value : Option String
  setting_type : Option String
  injection_point : Option String
  id : Option String
  display_name : Option String
  sort_order : Option Int
deriving DecidableEq

/-- The `CustomScript` interface. -/
structure CustomScript where
  id : String
  key : String
  display_name : String
  value : String
  setting_type : String
  injection_point : String
  sort_order : Int
deriving DecidableEq

/-- The `scripts` field of `AllSiteSettings`: one ordered sequence per
injection point. -/
structure Scripts where
  head_start : List CustomScript
  head_end : List CustomScript
  body_start : List CustomScript
  body_end : List CustomScript

/-- The `AllSiteSettings` bundle; each settings group is a JavaScript
object (the runtime value the merge produces). -/
structure AllSiteSettings where
  seo : JsObj
  analytics : JsObj
  general : JsObj
  contact : JsObj
  social : JsObj
  scripts : Scripts

/-- JavaScript truthiness of an optional string: `undefined`, `null` and
the empty string are falsy. -/
def truthy : Option String → Bool
  | none => false
  | some s => !(s == "")

/-- The string fallback idiom `a || b`: `b` when `a` is missing or empty. -/
def jsOr (o : Option String) (d : String) : String :=
  match o with
  | some s => if s = "" then d else s
  | none => d

/-- The numeric fallback idiom `n || 0`: zero stays zero, anything else
keeps its value (the model has no NaN). -/
def jsOrZero (o : Option Int) : Int :=
  match o with
  | some n => if n = 0 then 0 else n
  | none => 0

/-- Extract an optional string, empty when missing (only used where a
truthiness guard has already ruled the `none` case out). -/
def optStr (o : Option String) : String :=
  match o with
  | some s => s
  | none => ""

/-- `parseJsonValue` from `settings.ts`: falsy value or parse failure give
the defaults, otherwise the spread `\x7b ...defaults, ...parsed \x7d`. -/
def parseJsonValue (value : Option String) (defaults : JsObj) : JsObj :=
  match value with
  | none => defaults
  | some v =>
    if v = "" then defaults
    else
      match jsonParse v with
      | some j => spreadObj defaults (spreadFields j)
      | none => defaults

/-- The fresh all-defaults bundle built at the top of
`parseSettingsFromData`. -/
def initialSettings : AllSiteSettings :=
  { seo := DEFAULT_SEO
    analytics := DEFAULT_ANALYTICS
    general := DEFAULT_GENERAL
    contact := DEFAULT_CONTACT
    social := DEFAULT_SOCIAL
    scripts := { head_start := [], head_end := [], body_start := [], body_end := [] } }

/-- `String.prototype.startsWith`, modelled on the character list. -/
def strStartsWith (s p : String) : Bool :=
  s.toList.take p.toList.length = p.toList

/-- The guard of the custom-script branch:
`!key.startsWith('settings_') && injection_point && setting_type && value`. -/
def customGuard (row : Row) : Bool :=
  !(strStartsWith row.key "settings_") && truthy row.injection_point
    && truthy row.setting_type && truthy row.value

/-- The `CustomScript` object literal built in the custom-script branch. -/
def mkScript (row : Row) : CustomScript :=
  { id := jsOr row.id row.key
    key := row.key
    display_name := jsOr row.display_name row.key
    value := optStr row.value
    setting_type := optStr row.setting_type
    injection_point := optStr row.injection_point
    sort_order := jsOrZero row.sort_order }

/-- The inner `switch (injection_point)`: push onto the matching sequence,
fall through silently on any other tag. -/
def pushScript (s : AllSiteSettings) (sc : CustomScript) : AllSiteSettings :=
  if sc.injection_point = "head_start" then
    { s with scripts := { s.scripts with head_start := s.scripts.head_start ++ [sc] } }
  else if sc.injection_point = "head_end" then
    { s with scripts := { s.scripts with head_end := s.scripts.head_end ++ [sc] } }
  else if sc.injection_point = "body_start" then
    { s with scripts := { s.scripts with body_start := s.scripts.body_start ++ [sc] } }
  else if sc.injection_point = "body_end" then
    { s with scripts := { s.scripts with body_end := s.scripts.body_end ++ [sc] } }
  else s

/-- The body of the `for (const row of data)` loop: the `switch (key)` over
the five reserved keys, with the custom-script default branch. -/
def applyRow (s : AllSiteSettings) (row : Row) : AllSiteSettings :=
  if row.key = "settings_seo" then
    { s with seo := parseJsonValue row.value DEFAULT_SEO }
  else if row.key = "settings_analytics" then
    { s with analytics := parseJsonValue row.value DEFAULT_ANALYTICS }
  else if row.key = "settings_general" then
    { s with general := parseJsonValue row.value DEFAULT_GENERAL }
  else if row.key = "settings_contact" then
    { s with contact := parseJsonValue row.value DEFAULT_CONTACT }
  else if row.key = "settings_social" then
    { s with social := parseJsonValue row.value DEFAULT_SOCIAL }
  else if customGuard row then
    pushScript s (mkScript row)
  else s

/-- `parseSettingsFromData` from `settings.ts`. -/
def parseSettingsFromData (data : List Row) : AllSiteSettings :=
  data.foldl applyRow initialSettings

/-- `getDefaultSettings` from `settings.ts` (used when a fetch fails). -/
def getDefaultSettings : AllSiteSettings :=
  { seo := DEFAULT_SEO
    analytics := DEFAULT_ANALYTICS
    general := DEFAULT_GENERAL
    contact := DEFAULT_CONTACT
    social := DEFAULT_SOCIAL
    scripts := { head_start := [], head_end := [], body_start := [], body_end := [] } }

/-- The default object attached to a reserved group key, `none` for any
non-reserved key. -/
def reservedDefault (k : String) : Option JsObj :=
  if k = "settings_seo" then some DEFAULT_SEO
  else if k = "settings_analytics" then some DEFAULT_ANALYTICS
  else if k = "settings_general" then some DEFAULT_GENERAL
  else if k = "settings_contact" then some DEFAULT_CONTACT
  else if k = "settings_social" then some DEFAULT_SOCIAL
  else none

/-- Read the settings group a reserved key routes to. -/
def groupOf (s : AllSiteSettings) (k : String) : Option JsObj :=
  if k = "settings_seo" then some s.seo
  else if k = "settings_analytics" then some s.analytics
  else if k = "settings_general" then some s.general
  else if k = "settings_contact" then some s.contact
  else if k = "settings_social" then some s.social
  else none

/-- Read one of the four script sequences by injection-point name. -/
def seqOf (sc : Scripts) (ip : String) : List CustomScript :=
  if ip = "head_start" then sc.head_start
  else if ip = "head_end" then sc.head_end
  else if ip = "body_start" then sc.body_start
  else if ip = "body_end" then sc.body_end
  else []

/-- The four injection points. -/
def injectionPoints : List String := ["head_start", "head_end", "body_start", "body_end"]

/-- Whether a row is routed, as a custom script, to injection point `ip`. -/
def isCustomFor (ip : String) (row : Row) : Bool :=
  customGuard row && (row.injection_point == some ip)

/-- Whether a row is a fully-specified custom entry that lands in one of
the four sequences. -/
def isFullCustom (row : Row) : Bool :=
  customGuard row &&
    ((row.injection_point == some "head_start") || (row.injection_point == some "head_end")
      || (row.injection_point == some "body_start") || (row.injection_point == some "body_end"))

/-- The key list of a JavaScript object. -/
def objKeys (o : JsObj) : List String :=
  o.map (fun p => p.1)

/-! ### The loader state machine (`fetchAllSiteSettings` / `clearSettingsCache`)

`settings.ts` keeps two module-scoped slots: `settingsCache` (data plus
timestamp) and `pendingRequest` (the shared in-flight promise).  JavaScript
is single-threaded, so each synchronous section runs atomically; the model
therefore has three atomic events: a caller invoking the loader (the
synchronous prefix of `fetchAllSiteSettings`, which either serves the cache,
joins the pending promise, or issues the network query and installs the
promise), the settlement of an issued query (the continuation after `await`:
caching on success, the defaults on error, and the unconditional
`finally \x7b pendingRequest = null \x7d`), and `clearSettingsCache`.
Promises are named by numeric ids; `inFlight` is the observable set of
issued-but-unsettled network queries and `queries` counts every query
ever issued. -/

/-- `CACHE_DURATION = 5 * 60 * 1000`. -/
def CACHE_DURATION : Nat := 5 * 60 * 1000

/-- The module-scoped state of `settings.ts` plus request observables. -/
structure LoaderState where
  cache : Option (AllSiteSettings × Nat)
  pending : Option Nat
  inFlight : List Nat
  nextId : Nat
  queries : Nat

/-- Module load: both slots empty, nothing issued. -/
def initLoader : LoaderState :=
  { cache := none, pending := none, inFlight := [], nextId := 0, queries := 0 }

/-- The cache-validity test
`settingsCache && Date.now() - settingsCache.timestamp < CACHE_DURATION`. -/
def cacheValid (cache : Option (AllSiteSettings × Nat)) (now : Nat) : Bool :=
  match cache with
  | some (_, ts) => now - ts < CACHE_DURATION
  | none => false

/-- What a caller gets back synchronously: the cached bundle, or the
promise (by id) it will await. -/
inductive CallRes where
  | cached (b : AllSiteSettings)
  | awaiting (rid : Nat)

/-- The shared tail of `fetchAllSiteSettings` once the cache misses:
join the pending promise if there is one, otherwise create the request
(issuing the single network query) and install it in the pending slot. -/
def startOrJoin (s : LoaderState) : LoaderState × CallRes :=
  match s.pending with
  | some r => (s, CallRes.awaiting r)
  | none =>
    ({ cache := s.cache
       pending := some s.nextId
       inFlight := s.inFlight ++ [s.nextId]
       nextId := s.nextId + 1
       queries := s.queries + 1 }, CallRes.awaiting s.nextId)

/-- The synchronous prefix of `fetchAllSiteSettings`. -/
def fetchAllSiteSettings (s : LoaderState) (now : Nat) : LoaderState × CallRes :=
  match s.cache with
  | some (d, ts) =>
    if now - ts < CACHE_DURATION then (s, CallRes.cached d) else startOrJoin s
  | none => startOrJoin s

/-- Settlement of the issued query `rid`.  `outcome` is `some rows` for a
successful response and `none` for a query error or thrown transport error
(both source branches return the defaults).  On success the parsed bundle is
cached with the settlement-time timestamp; the `finally` clears the pending
slot unconditionally in every branch.  The second component is the value the
promise delivers to every caller awaiting it. -/
def resolveRequest (s : LoaderState) (rid : Nat) (outcome : Option (List Row)) (now : Nat) :
    LoaderState × AllSiteSettings :=
  if rid ∈ s.inFlight then
    match outcome with
    | some rows =>
      let b := parseSettingsFromData rows
      ({ s with cache := some (b, now), pending := none, inFlight := s.inFlight.erase rid }, b)
    | none =>
      ({ s with pending := none, inFlight := s.inFlight.erase rid }, getDefaultSettings)
  else (s, getDefaultSettings)

/-- `clearSettingsCache` from `settings.ts`: empties both slots (it does
not cancel a network query already in flight). -/
def clearSettingsCache (s : LoaderState) : LoaderState :=
  { s with cache := none, pending := none }

/-- The event alphabet of the loader. -/
inductive LoaderEvent where
  | call (now : Nat)
  | settle (rid : Nat) (outcome : Option (List Row)) (now : Nat)
  | clear
deriving DecidableEq

/-- One atomic step. -/
def loaderStep (s : LoaderState) : LoaderEvent → LoaderState
  | LoaderEvent.call now => (fetchAllSiteSettings s now).1
  | LoaderEvent.settle rid outcome now => (resolveRequest s rid outcome now).1
  | LoaderEvent.clear => clearSettingsCache s

/-- Run a trace of events. -/
def runTrace (s : LoaderState) (es : List LoaderEvent) : LoaderState :=
  es.foldl loaderStep s

/-- K back-to-back caller invocations (no settlement in between), with the
result each caller receives. -/
def runCalls (s : LoaderState) : List Nat → LoaderState × List CallRes
  | [] => (s, [])
  | t :: ts =>
    let p := fetchAllSiteSettings s t
    let q := runCalls p.1 ts
    (q.1, p.2 :: q.2)

/-! ### DOM model (`SEOInjector.tsx`, `Analytics.tsx`)

A document is a head child list and a body child list.  A node carries its
tag, whether it is an element node (`nodeType === 1`), its attributes, and
its text/innerHTML payload.  `document.querySelector` with an attribute
selector matches element nodes anywhere in the document; browser HTML
fragment parsing (`temp.innerHTML = ...`) is external library behaviour and
is passed in as an explicit `parseHtml` parameter. -/

/-- A DOM node. -/
structure DomNode where
  tag : String
  isElement : Bool
  attrs : List (String × String)
  content : String
deriving DecidableEq

/-- A document: the children of `head` and of `body`, in order. -/
structure Doc where
  head : List DomNode
  body : List DomNode
deriving DecidableEq

/-- `setAttribute`: replace in place or append. -/
def attrSet : List (String × String) → String → String → List (String × String)
  | [], a, v => [(a, v)]
  | (a', v') :: rest, a, v =>
    if a' = a then (a, v) :: rest else (a', v') :: attrSet rest a v

/-- Attribute lookup in an attribute list. -/
def attrGet : List (String × String) → String → Option String
  | [], _ => none
  | (a', v) :: rest, a => if a' = a then some v else attrGet rest a

/-- `getAttribute`. -/
def getAttr (n : DomNode) (a : String) : Option String :=
  attrGet n.attrs a

/-- Whether an element node carries attribute `a` with value `v`
(attribute selectors match element nodes only). -/
def hasAttrVal (n : DomNode) (a v : String) : Bool :=
  n.isElement && (getAttr n a == some v)

/-- All nodes of the document (the model keeps injected nodes at the two
top levels the consumers write to). -/
def docNodes (doc : Doc) : List DomNode :=
  doc.head ++ doc.body

/-- `document.querySelector('[a="v"]') !== null`. -/
def docHasMarker (doc : Doc) (a v : String) : Bool :=
  (docNodes doc).any (fun n => hasAttrVal n a v)

/-- `document.getElementById(i) !== null`. -/
def docHasId (doc : Doc) (i : String) : Bool :=
  (docNodes doc).any (fun n => hasAttrVal n "id" i)

/-- The script element `injectScript` creates: `id` always set, then
either an external `src` (with optional `async`) or inline content. -/
def scriptNode (i content : String) (src : Option String) (async : Bool) : DomNode :=
  match src with
  | some s =>
    { tag := "script", isElement := true
      attrs := (if async then [("id", i), ("src", s), ("async", "")] else [("id", i), ("src", s)])
      content := "" }
  | none => { tag := "script", isElement := true, attrs := [("id", i)], content := content }

/-- `injectScript` from `Analytics.tsx`: skip when a node with the id
exists, otherwise create the script node and `document.head.appendChild`
it. -/
def injectScript (doc : Doc) (i : String) (content : String)
    (src : Option String) (async : Bool) : Doc :=
  if docHasId doc i then doc
  else { doc with head := doc.head ++ [scriptNode i content src async] }

/-- The marked `<script>` element `injectIntoBody` creates for the
`script` kind. -/
def bodyScriptNode (script : CustomScript) : DomNode :=
  { tag := "script", isElement := true
    attrs := [("data-seo-setting", script.key)], content := script.value }

/-- The marked `display: contents` container `injectIntoBody` creates for
the `custom_html` kind. -/
def bodyHtmlNode (script : CustomScript) : DomNode :=
  { tag := "div", isElement := true
    attrs := [("data-seo-setting", script.key), ("style", "display: contents")]
    content := script.value }

/-- The single marked node `injectIntoBody` creates for a body-injectable
item: the `<script>` element for the `script` kind, the container for
`custom_html`. -/
def bodyInjectedNode (script : CustomScript) : DomNode :=
  if script.setting_type = "script" then bodyScriptNode script else bodyHtmlNode script

/-- `injectIntoBody` from `SEOInjector.tsx`: skip falsy payloads and
already-marked keys; `script` and `custom_html` kinds create one marked
node, prepended (`insertBefore` the first child) or appended per the
`prepend` flag; other kinds do nothing. -/
def injectIntoBody (doc : Doc) (script : CustomScript) (prepend : Bool) : Doc :=
  if script.value = "" then doc
  else if docHasMarker doc "data-seo-setting" script.key then doc
  else if script.setting_type = "script" then
    (if prepend then { doc with body := bodyScriptNode script :: doc.body }
     else { doc with body := doc.body ++ [bodyScriptNode script] })
  else if script.setting_type = "custom_html" then
    (if prepend then { doc with body := bodyHtmlNode script :: doc.body }
     else { doc with body := doc.body ++ [bodyHtmlNode script] })
  else doc

/-- The fragment children `injectIntoHead` moves into the head: every
element child gets the `data-head-setting` marker, text children move
unchanged. -/
def taggedChildren (parseHtml : String → List DomNode)
    (script : CustomScript) : List DomNode :=
  (parseHtml script.value).map
    (fun n => if n.isElement
      then { n with attrs := attrSet n.attrs "data-head-setting" script.key } else n)

/-- `injectIntoHead` from `SEOInjector.tsx`: skip falsy payloads and
already-marked keys; for `meta_tag` and `custom_html` kinds, parse the
payload into fragment children, mark each element child, and
`document.head.appendChild` each child in order. -/
def injectIntoHead (parseHtml : String → List DomNode) (doc : Doc)
    (script : CustomScript) : Doc :=
  if script.value = "" then doc
  else if docHasMarker doc "data-head-setting" script.key then doc
  else if script.setting_type = "meta_tag" ∨ script.setting_type = "custom_html" then
    { doc with head := doc.head ++ taggedChildren parseHtml script }
  else doc

/-- The body-injection effect of `SEOInjector`: every `body_start` item with
`prepend = true`, then every `body_end` item with `prepend = false`. -/
def injectBodyScripts (doc : Doc) (scripts : Scripts) : Doc :=
  scripts.body_end.foldl (fun d sc => injectIntoBody d sc false)
    (scripts.body_start.foldl (fun d sc => injectIntoBody d sc true) doc)

/-- The head-injection effect of `SEOInjector`: every `head_start` item,
then every `head_end` item, each through `injectIntoHead`. -/
def injectHeadScripts (parseHtml : String → List DomNode) (doc : Doc)
    (scripts : Scripts) : Doc :=
  scripts.head_end.foldl (injectIntoHead parseHtml)
    (scripts.head_start.foldl (injectIntoHead parseHtml) doc)

/-! ### Concrete inputs used by witnesses and counterexamples -/

/-- A `settings_seo` row holding the JSON `\x7b"meta_title":"X"\x7d`. -/
def seoRowX : Row :=
  { key := "settings_seo", value := some "\x7b\"meta_title\":\"X\"\x7d"
    setting_type := none, injection_point := none
    id := none, display_name := none, sort_order := none }

/-- A `settings_seo` row with a `null` payload. -/
def seoRowEmpty : Row :=
  { key := "settings_seo", value := none
    setting_type := none, injection_point := none
    id := none, display_name := none, sort_order := none }

/-- A `settings_general` row holding the JSON `\x7b"site_name":"G"\x7d`. -/
def generalRowG : Row :=
  { key := "settings_general", value := some "\x7b\"site_name\":\"G\"\x7d"
    setting_type := none, injection_point := none
    id := none, display_name := none, sort_order := none }

/-- A `settings_analytics` row whose payload is not valid JSON. -/
def analyticsRowCorrupt : Row :=
  { key := "settings_analytics", value := some "not json"
    setting_type := none, injection_point := none
    id := none, display_name := none, sort_order := none }

/-- A fully-specified custom row whose key nevertheless starts with the
reserved prefix. -/
def c6row1 : Row :=
  { key := "settings_banner", value := some "x"
    setting_type := some "script", injection_point := some "body_end"
    id := none, display_name := none, sort_order := none }

/-- A fully-tagged custom row whose injection point is none of the four. -/
def c6row2 : Row :=
  { key := "banner2", value := some "x"
    setting_type := some "script", injection_point := some "sidebar"
    id := none, display_name := none, sort_order := none }

/-- An ordinary custom row routed to `body_end`. -/
def bodyEndRow : Row :=
  { key := "banner", value := some "x"
    setting_type := some "script", injection_point := some "body_end"
    id := none, display_name := none, sort_order := none }

/-- A custom row with no injection point. -/
def noIpRow : Row :=
  { key := "banner3", value := some "x"
    setting_type := some "script", injection_point := none
    id := none, display_name := none, sort_order := none }

/-- A fully-populated custom row. -/
def wrow : Row :=
  { key := "w", value := some "v"
    setting_type := some "script", injection_point := some "head_end"
    id := some "wid", display_name := none, sort_order := some 7 }

/-- A custom row whose `id` column is present but empty. -/
def c10row : Row :=
  { key := "pix", value := some "x"
    setting_type := some "script", injection_point := some "body_end"
    id := some "", display_name := none, sort_order := none }

/-- A loader state with a freshly cached default bundle and empty slots. -/
def sValid : LoaderState :=
  { cache := some (getDefaultSettings, 0), pending := none, inFlight := [], nextId := 1, queries := 1 }

/-- The loader state right after the first caller started request `0`. -/
def sPend : LoaderState :=
  { cache := none, pending := some 0, inFlight := [0], nextId := 1, queries := 1 }

/-- An empty document. -/
def emptyDoc : Doc := { head := [], body := [] }

/-- A pre-existing head child. -/
def titleNode : DomNode := { tag := "title", isElement := true, attrs := [], content := "t" }

/-- A pre-existing body child. -/
def paraNode : DomNode := { tag := "p", isElement := true, attrs := [], content := "x" }

/-- A document with one head child and one body child. -/
def pageDoc : Doc := { head := [titleNode], body := [paraNode] }

/-- A concrete HTML fragment parser: one element node holding the raw
payload (stands in for the browser's fragment parser in closed instances). -/
def oneMetaHtml (s : String) : List DomNode :=
  [{ tag := "meta", isElement := true, attrs := [], content := s }]

/-- The tagged meta node that `oneMetaHtml` yields for `hsScript`. -/
def k1Meta : DomNode :=
  { tag := "meta", isElement := true
    attrs := [("data-head-setting", "k1")], content := "PAYLOAD" }

/-- A `head_start` item of kind `meta_tag`. -/
def hsScript : CustomScript :=
  { id := "i1", key := "k1", display_name := "n1", value := "PAYLOAD"
    setting_type := "meta_tag", injection_point := "head_start", sort_order := 0 }

/-- A `body_start` item of kind `script`. -/
def bwit : CustomScript :=
  { id := "i2", key := "k2", display_name := "n2", value := "v2"
    setting_type := "script", injection_point := "body_start", sort_order := 0 }

/-- A body item of kind `custom_html`. -/
def hwit : CustomScript :=
  { id := "i3", key := "k3", display_name := "n3", value := "v3"
    setting_type := "custom_html", injection_point := "body_end", sort_order := 0 }

/-! ### Lemmas on JavaScript objects and the merge -/

theorem objKeys_cons (k0 : String) (v0 : Json) (rest : JsObj) :
    objKeys ((k0, v0) :: rest) = k0 :: objKeys rest := rfl

theorem objGet_objInsert (a : JsObj) (k : String) (v : Json) (k' : String) :
    objGet (objInsert a k v) k' = if k' = k then some v else objGet a k' := by
  induction a with
  | nil =>
    by_cases h : k' = k
    · subst h
      simp [objInsert, objGet]
    · have h' : k ≠ k' := Ne.symm h
      simp [objInsert, objGet, h, h']
  | cons p rest ih =>
    obtain ⟨k1, v1⟩ := p
    by_cases h1 : k1 = k
    · subst h1
      by_cases h2 : k' = k1
      · subst h2
        simp [objInsert, objGet]
      · have h2' : k1 ≠ k' := Ne.symm h2
        simp [objInsert, objGet, h2, h2']
    · by_cases h2 : k' = k
      · subst h2
        simp [objInsert, objGet, h1, ih]
      · by_cases h3 : k1 = k'
        · subst h3
          simp [objInsert, objGet, h1, h2]
        · simp [objInsert, objGet, h1, h2, h3, ih]

theorem objGet_spreadObj (a b : JsObj) (hb : (objKeys b).Nodup) (k : String) :
    objGet (spreadObj a b) k = if k ∈ objKeys b then objGet b k else objGet a k := by
  induction b generalizing a with
  | nil => simp [spreadObj, objKeys, objGet]
  | cons p rest ih =>
    obtain ⟨k0, v0⟩ := p
    rw [objKeys_cons] at hb
    obtain ⟨hk0, hb'⟩ := List.nodup_cons.mp hb
    have hstep : spreadObj a ((k0, v0) :: rest) = spreadObj (objInsert a k0 v0) rest := rfl
    rw [hstep, ih (objInsert a k0 v0) hb', objKeys_cons]
    by_cases h : k ∈ objKeys rest
    · have hne : k0 ≠ k := by
        intro hh
        rw [hh] at hk0
        exact hk0 h
      rw [if_pos h, if_pos (List.mem_cons_of_mem _ h)]
      simp [objGet, hne]
    · by_cases h2 : k = k0
      · subst h2
        rw [if_neg h, if_pos (List.mem_cons_self _ _), objGet_objInsert]
        simp [objGet]
      · have hmem : k ∉ k0 :: objKeys rest := by
          intro hh
          rcases List.mem_cons.mp hh with hh1 | hh2
          · exact h2 hh1
          · exact h hh2
        rw [if_neg h, if_neg hmem, objGet_objInsert]
        simp [h2]

theorem parseJsonValue_obj (v : String) (d fs : JsObj)
    (hjson : jsonParse v = some (Json.obj fs)) :
    parseJsonValue (some v) d = spreadObj d fs := by
  have hv : v ≠ "" := by
    intro h
    subst h
    rw [show jsonParse "" = none from rfl] at hjson
    exact Option.noConfusion hjson
  simp [parseJsonValue, hv, hjson, spreadFields]

theorem parseJsonValue_bad (v : String) (d : JsObj)
    (hjson : jsonParse v = none) :
    parseJsonValue (some v) d = d := by
  by_cases hv : v = "" <;> simp [parseJsonValue, hv, hjson]

/-! ### Lemmas on the row parser -/

theorem customGuard_reserved (row : Row) (d : JsObj)
    (h : reservedDefault row.key = some d) :
    customGuard row = false := by
  have hstart : strStartsWith row.key "settings_" = true := by
    unfold reservedDefault at h
    split_ifs at h with h1 h2 h3 h4 h5
    · rw [h1]; decide
    · rw [h2]; decide
    · rw [h3]; decide
    · rw [h4]; decide
    · rw [h5]; decide
  unfold customGuard
  rw [hstart]
  rfl

theorem groupOf_applyRow_self (s : AllSiteSettings) (row : Row) (d : JsObj)
    (h : reservedDefault row.key = some d) :
    groupOf (applyRow s row) row.key = some (parseJsonValue row.value d) := by
  unfold reservedDefault at h
  split_ifs at h with h1 h2 h3 h4 h5
  · injection h with h'
    subst h'
    simp [applyRow, groupOf, h1]
  · injection h with h'
    subst h'
    simp [applyRow, groupOf, h2, h1]
  · injection h with h'
    subst h'
    simp [applyRow, groupOf, h3, h1, h2]
  · injection h with h'
    subst h'
    simp [applyRow, groupOf, h4, h1, h2, h3]
  · injection h with h'
    subst h'
    simp [applyRow, groupOf, h5, h1, h2, h3, h4]

theorem groupOf_record_scripts (s : AllSiteSettings) (x : Scripts) (k : String) :
    groupOf { s with scripts := x } k = groupOf s k := by
  unfold groupOf
  split_ifs <;> rfl

theorem groupOf_pushScript (s : AllSiteSettings) (sc : CustomScript) (k : String) :
    groupOf (pushScript s sc) k = groupOf s k := by
  unfold pushScript
  split_ifs <;> simp [groupOf_record_scripts]

theorem groupOf_applyRow_other (s : AllSiteSettings) (row : Row) (k : String)
    (hne : k ≠ row.key) :
    groupOf (applyRow s row) k = groupOf s k := by
  unfold applyRow
  split_ifs with h1 h2 h3 h4 h5 h6
  · unfold groupOf
    split_ifs <;> simp_all
  · unfold groupOf
    split_ifs <;> simp_all
  · unfold groupOf
    split_ifs <;> simp_all
  · unfold groupOf
    split_ifs <;> simp_all
  · unfold groupOf
    split_ifs <;> simp_all
  · exact groupOf_pushScript s (mkScript row) k
  · rfl

theorem scripts_applyRow_not_custom (s : AllSiteSettings) (row : Row)
    (hg : customGuard row = false) :
    (applyRow s row).scripts = s.scripts := by
  unfold applyRow
  split_ifs <;> first | rfl | simp_all

/-- Claim C4: a reserved-key row whose payload is a valid JSON object is
shallow-merged over that group's default object — present fields take the
stored value, absent fields keep their default.  (The key-uniqueness
hypothesis is intrinsic to `JSON.parse` output, which resolves duplicate
members before returning.) -/
theorem c4_merge_over_default (s : AllSiteSettings) (row : Row) (d : JsObj)
    (v : String) (fs : JsObj)
    (hres : reservedDefault row.key = some d)
    (hval : row.value = some v)
    (hjson : jsonParse v = some (Json.obj fs))
    (hnd : (objKeys fs).Nodup) :
    groupOf (applyRow s row) row.key = some (spreadObj d fs) ∧
    (∀ k, k ∈ objKeys fs → objGet (spreadObj d fs) k = objGet fs k) ∧
    (∀ k, k ∉ objKeys fs → objGet (spreadObj d fs) k = objGet d k) := by
  refine ⟨?_, ?_, ?_⟩
  · rw [groupOf_applyRow_self s row d hres, hval, parseJsonValue_obj v d fs hjson]
  · intro k hk
    rw [objGet_spreadObj d fs hnd k, if_pos hk]
  · intro k hk
    rw [objGet_spreadObj d fs hnd k, if_neg hk]

/-- Witness for C4 at the spec's own example: a stored `settings_seo` value
of `\x7b"meta_title":"X"\x7d` yields `meta_title = "X"` and leaves
`meta_description` at its default. -/
theorem c4_merge_over_default_witness :
    groupOf (applyRow initialSettings seoRowX) "settings_seo"
      = some (spreadObj DEFAULT_SEO [("meta_title", Json.str "X")]) ∧
    objGet (spreadObj DEFAULT_SEO [("meta_title", Json.str "X")]) "meta_title"
      = some (Json.str "X") ∧
    objGet (spreadObj DEFAULT_SEO [("meta_title", Json.str "X")]) "meta_description"
      = some (Json.str "Shopping Mall in Tangerang") := by
  have h := c4_merge_over_default initialSettings seoRowX DEFAULT_SEO
    "\x7b\"meta_title\":\"X\"\x7d" [("meta_title", Json.str "X")] rfl rfl rfl (by decide)
  refine ⟨h.1, ?_, ?_⟩
  · rw [h.2.1 "meta_title" (by decide)]
    rfl
  · rw [h.2.2 "meta_description" (by decide)]
    rfl

/-! ### Routing lemmas for the custom-script branch -/

theorem notReserved_of_customGuard (row : Row) (hg : customGuard row = true)
    (lit : String) (hlit : strStartsWith lit "settings_" = true) :
    row.key ≠ lit := by
  intro hk
  unfold customGuard at hg
  rw [hk, hlit] at hg
  simp at hg

theorem applyRow_custom (s : AllSiteSettings) (row : Row)
    (hg : customGuard row = true) :
    applyRow s row = pushScript s (mkScript row) := by
  have n1 := notReserved_of_customGuard row hg "settings_seo" (by decide)
  have n2 := notReserved_of_customGuard row hg "settings_analytics" (by decide)
  have n3 := notReserved_of_customGuard row hg "settings_general" (by decide)
  have n4 := notReserved_of_customGuard row hg "settings_contact" (by decide)
  have n5 := notReserved_of_customGuard row hg "settings_social" (by decide)
  unfold applyRow
  rw [if_neg n1, if_neg n2, if_neg n3, if_neg n4, if_neg n5, if_pos hg]

theorem seqOf_pushScript (s : AllSiteSettings) (sc : CustomScript) (ip : String)
    (hip : ip ∈ injectionPoints) :
    seqOf (pushScript s sc).scripts ip
      = seqOf s.scripts ip ++ (if sc.injection_point = ip then [sc] else []) := by
  simp only [injectionPoints, List.mem_cons, List.not_mem_nil, or_false] at hip
  unfold pushScript
  rcases hip with rfl | rfl | rfl | rfl <;> split_ifs <;> simp_all [seqOf]

theorem truthy_of_customGuard (row : Row) (hg : customGuard row = true) :
    truthy row.injection_point = true := by
  unfold customGuard at hg
  simp only [Bool.and_eq_true] at hg
  exact hg.1.1.2

theorem applyRow_seq (s : AllSiteSettings) (row : Row) (ip : String)
    (hip : ip ∈ injectionPoints) :
    seqOf (applyRow s row).scripts ip
      = seqOf s.scripts ip ++ (if isCustomFor ip row = true then [mkScript row] else []) := by
  by_cases hg : customGuard row = true
  · rw [applyRow_custom s row hg, seqOf_pushScript s (mkScript row) ip hip]
    have ht := truthy_of_customGuard row hg
    rcases hrow : row.injection_point with _ | t
    · rw [hrow] at ht
      simp [truthy] at ht
    · have hms : (mkScript row).injection_point = t := by
        simp [mkScript, optStr, hrow]
      have hic : isCustomFor ip row = (t == ip) := by
        simp [isCustomFor, hg, hrow]
      rw [hms, hic]
      by_cases he : t = ip
      · simp [he]
      · simp [he]
  · have hg' : customGuard row = false := by
      revert hg
      cases customGuard row <;> simp
    rw [scripts_applyRow_not_custom s row hg']
    simp [isCustomFor, hg']

theorem seqOf_foldl (rows : List Row) (s : AllSiteSettings) (ip : String)
    (hip : ip ∈ injectionPoints) :
    seqOf (rows.foldl applyRow s).scripts ip
      = seqOf s.scripts ip ++ (rows.filter (isCustomFor ip)).map mkScript := by
  induction rows generalizing s with
  | nil => simp
  | cons row rows ih =>
    rw [List.foldl_cons, ih (applyRow s row), applyRow_seq s row ip hip]
    by_cases hc : isCustomFor ip row = true
    · simp [List.filter_cons, hc]
    · have hc' : isCustomFor ip row = false := by
        revert hc
        cases isCustomFor ip row <;> simp
      simp [List.filter_cons, hc']

/-- Claim C6 (amended): a row is appended to the sequence for its
injection point — exactly once, in input order, and to no other
sequence — precisely when its key does not carry the reserved
`settings_` prefix, it has one of the four injection-point tags, a kind
tag, and a non-empty payload; rows missing the injection point (or any
other part of the guard) land in no sequence.  The original claim's
premise "key is not one of the five reserved group keys" is too weak:
the code drops every key with the `settings_` prefix. -/
theorem c6_script_routing (rows : List Row) (ip : String)
    (hip : ip ∈ injectionPoints) :
    seqOf (parseSettingsFromData rows).scripts ip
      = (rows.filter (isCustomFor ip)).map mkScript := by
  unfold parseSettingsFromData
  rw [seqOf_foldl rows initialSettings ip hip]
  have h0 : seqOf initialSettings.scripts ip = [] := by
    simp only [injectionPoints, List.mem_cons, List.not_mem_nil, or_false] at hip
    rcases hip with rfl | rfl | rfl | rfl <;> rfl
  rw [h0, List.nil_append]

/-- Counterexample to C6 as stated: `c6row1` has key `settings_banner` —
not one of the five reserved group keys — plus an injection-point tag,
a kind tag and a non-empty value, yet it is appended to no sequence;
`c6row2` carries a tag outside the four points and also lands nowhere. -/
theorem c6_counterexample :
    reservedDefault c6row1.key = none ∧
    c6row1.injection_point = some "body_end" ∧
    c6row1.setting_type = some "script" ∧
    c6row1.value = some "x" ∧
    (parseSettingsFromData [c6row1]).scripts.head_start = [] ∧
    (parseSettingsFromData [c6row1]).scripts.head_end = [] ∧
    (parseSettingsFromData [c6row1]).scripts.body_start = [] ∧
    (parseSettingsFromData [c6row1]).scripts.body_end = [] ∧
    (parseSettingsFromData [c6row2]).scripts.head_start = [] ∧
    (parseSettingsFromData [c6row2]).scripts.head_end = [] ∧
    (parseSettingsFromData [c6row2]).scripts.body_start = [] ∧
    (parseSettingsFromData [c6row2]).scripts.body_end = [] :=
  ⟨rfl, rfl, rfl, rfl, rfl, rfl, rfl, rfl, rfl, rfl, rfl, rfl⟩

/-- Witness for C6: a `body_end` script row lands exactly in `body_end`,
and a row with no injection point lands in none of the four sequences. -/
theorem c6_script_routing_witness :
    seqOf (parseSettingsFromData [bodyEndRow, noIpRow]).scripts "body_end"
      = [mkScript bodyEndRow] ∧
    seqOf (parseSettingsFromData [bodyEndRow, noIpRow]).scripts "head_start" = [] ∧
    seqOf (parseSettingsFromData [bodyEndRow, noIpRow]).scripts "head_end" = [] ∧
    seqOf (parseSettingsFromData [bodyEndRow, noIpRow]).scripts "body_start" = [] := by
  refine ⟨?_, ?_, ?_, ?_⟩
  · rw [c6_script_routing [bodyEndRow, noIpRow] "body_end" (by decide)]
    rfl
  · rw [c6_script_routing [bodyEndRow, noIpRow] "head_start" (by decide)]
    rfl
  · rw [c6_script_routing [bodyEndRow, noIpRow] "head_end" (by decide)]
    rfl
  · rw [c6_script_routing [bodyEndRow, noIpRow] "body_start" (by decide)]
    rfl

/-- Claim C5: the row parser is total by construction, and a reserved-key
row whose payload is not valid JSON sets exactly that group to its full
default — every other group and all script sequences are untouched, so
groups parsed from valid sibling rows are unaffected. -/
theorem c5_malformed_isolation (s : AllSiteSettings) (row : Row) (d : JsObj)
    (str : String)
    (hres : reservedDefault row.key = some d)
    (hval : row.value = some str)
    (hne : str ≠ "")
    (hbad : jsonParse str = none) :
    groupOf (applyRow s row) row.key = some d ∧
    (∀ k, k ≠ row.key → groupOf (applyRow s row) k = groupOf s k) ∧
    (applyRow s row).scripts = s.scripts := by
  refine ⟨?_, ?_, ?_⟩
  · rw [groupOf_applyRow_self s row d hres, hval, parseJsonValue_bad str d hbad]
  · intro k hk
    exact groupOf_applyRow_other s row k hk
  · exact scripts_applyRow_not_custom s row (customGuard_reserved row d hres)

/-- Witness for C5 at the spec's own example: a corrupt
`settings_analytics` value yields the analytics defaults while the `seo`
and `general` groups parsed from valid sibling rows keep their values. -/
theorem c5_malformed_isolation_witness :
    groupOf (applyRow (parseSettingsFromData [seoRowX, generalRowG]) analyticsRowCorrupt)
        "settings_analytics" = some DEFAULT_ANALYTICS ∧
    groupOf (applyRow (parseSettingsFromData [seoRowX, generalRowG]) analyticsRowCorrupt)
        "settings_seo"
      = groupOf (parseSettingsFromData [seoRowX, generalRowG]) "settings_seo" ∧
    objGet (parseSettingsFromData [seoRowX, generalRowG]).seo "meta_title"
      = some (Json.str "X") ∧
    objGet (parseSettingsFromData [seoRowX, generalRowG]).general "site_name"
      = some (Json.str "G") := by
  have h := c5_malformed_isolation (parseSettingsFromData [seoRowX, generalRowG])
    analyticsRowCorrupt DEFAULT_ANALYTICS "not json" rfl rfl (by decide) rfl
  exact ⟨h.1, h.2.1 "settings_seo" (by decide), rfl, rfl⟩

/-- Claim C7 (amended): a row that is neither reserved nor a
fully-specified custom entry is a true no-op; but a reserved-key row with
a missing or empty payload is not dropped — it sets that group to its
full default object (overwriting any value an earlier valid row with the
same reserved key had established), leaving the other groups and the
script sequences unchanged. -/
theorem c7_drop_and_reset (s : AllSiteSettings) (row : Row) :
    (∀ d, reservedDefault row.key = some d →
      (row.value = none ∨ row.value = some "") →
      groupOf (applyRow s row) row.key = some d ∧
      (∀ k, k ≠ row.key → groupOf (applyRow s row) k = groupOf s k) ∧
      (applyRow s row).scripts = s.scripts) ∧
    (reservedDefault row.key = none → isFullCustom row = false →
      applyRow s row = s) := by
  constructor
  · intro d hres hv
    have hpj : parseJsonValue row.value d = d := by
      rcases hv with hv | hv <;> rw [hv] <;> simp [parseJsonValue]
    refine ⟨?_, ?_, ?_⟩
    · rw [groupOf_applyRow_self s row d hres, hpj]
    · intro k hk
      exact groupOf_applyRow_other s row k hk
    · exact scripts_applyRow_not_custom s row (customGuard_reserved row d hres)
  · intro hres hfc
    unfold reservedDefault at hres
    split_ifs at hres with h1 h2 h3 h4 h5
    unfold applyRow
    rw [if_neg h1, if_neg h2, if_neg h3, if_neg h4, if_neg h5]
    by_cases hg : customGuard row = true
    · rw [if_pos hg]
      have ht := truthy_of_customGuard row hg
      rcases hrow : row.injection_point with _ | t
      · rw [hrow] at ht
        simp [truthy] at ht
      · have hms : (mkScript row).injection_point = t := by
          simp [mkScript, optStr, hrow]
        unfold isFullCustom at hfc
        rw [hg, hrow] at hfc
        simp only [Bool.true_and, Bool.or_eq_false_iff, beq_eq_false_iff_ne,
          Ne, Option.some.injEq] at hfc
        obtain ⟨⟨⟨f1, f2⟩, f3⟩, f4⟩ := hfc
        unfold pushScript
        rw [hms, if_neg f1, if_neg f2, if_neg f3, if_neg f4]
    · rw [if_neg hg]

/-- Counterexample to C7 as stated: processing a `settings_seo` row with a
`null` payload does not leave the bundle as it would be without that row —
it resets `seo.meta_title` from the earlier valid row's `"X"` back to the
default. -/
theorem c7_counterexample :
    objGet (parseSettingsFromData [seoRowX]).seo "meta_title" = some (Json.str "X") ∧
    seoRowEmpty.key = "settings_seo" ∧
    seoRowEmpty.value = none ∧
    objGet (parseSettingsFromData [seoRowX, seoRowEmpty]).seo "meta_title"
      = some (Json.str "Supermal Karawaci") :=
  ⟨rfl, rfl, rfl, rfl⟩

/-- Witness for C7: an empty-payload reserved row yields that group's
defaults, and an under-specified custom row is a strict no-op. -/
theorem c7_drop_and_reset_witness :
    groupOf (applyRow initialSettings seoRowEmpty) "settings_seo" = some DEFAULT_SEO ∧
    applyRow initialSettings noIpRow = initialSettings := by
  refine ⟨?_, ?_⟩
  · exact ((c7_drop_and_reset initialSettings seoRowEmpty).1 DEFAULT_SEO rfl (Or.inl rfl)).1
  · exact (c7_drop_and_reset initialSettings noIpRow).2 rfl (by decide)

/-- Claim C10 (amended): a parsed custom-script entity defaults its
optional fields deterministically — `id` is the row's id when present
*and non-empty* (the `id || key` fallback also fires on an empty string),
otherwise the key; `display_name` likewise; `sort_order` is the row's
value when present and otherwise `0`. -/
theorem c10_field_defaulting (s : AllSiteSettings) (row : Row) (ip : String)
    (hrow : row.injection_point = some ip)
    (hip : ip ∈ injectionPoints)
    (hg : customGuard row = true) :
    seqOf (applyRow s row).scripts ip = seqOf s.scripts ip ++ [mkScript row] ∧
    (∀ i, row.id = some i → i ≠ "" → (mkScript row).id = i) ∧
    ((row.id = none ∨ row.id = some "") → (mkScript row).id = row.key) ∧
    (∀ n, row.display_name = some n → n ≠ "" → (mkScript row).display_name = n) ∧
    ((row.display_name = none ∨ row.display_name = some "") →
      (mkScript row).display_name = row.key) ∧
    (∀ z, row.sort_order = some z → (mkScript row).sort_order = z) ∧
    (row.sort_order = none → (mkScript row).sort_order = 0) := by
  refine ⟨?_, ?_, ?_, ?_, ?_, ?_, ?_⟩
  · rw [applyRow_seq s row ip hip]
    have hc : isCustomFor ip row = true := by
      simp [isCustomFor, hg, hrow]
    rw [hc]
    simp
  · intro i hi hne
    simp [mkScript, jsOr, hi, hne]
  · intro hi
    rcases hi with hi | hi <;> simp [mkScript, jsOr, hi]
  · intro n hn hne
    simp [mkScript, jsOr, hn, hne]
  · intro hn
    rcases hn with hn | hn <;> simp [mkScript, jsOr, hn]
  · intro z hz
    simp only [mkScript, jsOrZero, hz]
    split_ifs with h0
    · omega
    · rfl
  · intro hz
    simp [mkScript, jsOrZero, hz]

/-- Counterexample to C10 as stated: `c10row.id` is present (the empty
string), yet the parsed entity's id is the row key `"pix"`, not the
present id. -/
theorem c10_counterexample :
    c10row.id = some "" ∧
    (parseSettingsFromData [c10row]).scripts.body_end = [mkScript c10row] ∧
    (mkScript c10row).id = "pix" ∧
    ("pix" : String) ≠ "" :=
  ⟨rfl, rfl, rfl, by decide⟩

/-- Witness for C10 on a fully-populated row. -/
theorem c10_field_defaulting_witness :
    seqOf (applyRow initialSettings wrow).scripts "head_end" = [mkScript wrow] ∧
    (mkScript wrow).id = "wid" ∧
    (mkScript wrow).display_name = "w" ∧
    (mkScript wrow).sort_order = 7 := by
  have h := c10_field_defaulting initialSettings wrow "head_end" rfl (by decide) (by decide)
  refine ⟨?_, h.2.1 "wid" rfl (by decide), h.2.2.2.2.1 (Or.inl rfl),
    h.2.2.2.2.2.1 7 rfl⟩
  rw [h.1]
  rfl

/-! ### Loader state-machine lemmas -/

/-- The dedup invariant: the pending slot tracks the in-flight queries
exactly — empty slot, no query; occupied slot, exactly that query. -/
def loaderInv (s : LoaderState) : Prop :=
  (s.pending = none → s.inFlight = []) ∧
  (∀ r, s.pending = some r → s.inFlight = [r])

theorem loaderInv_init : loaderInv initLoader := by
  constructor
  · intro _
    rfl
  · intro r h
    exact Option.noConfusion h

theorem loaderInv_startOrJoin (s : LoaderState) (h : loaderInv s) :
    loaderInv (startOrJoin s).1 := by
  rcases hp : s.pending with _ | r
  · have hf : s.inFlight = [] := h.1 hp
    constructor
    · intro hc
      simp [startOrJoin, hp] at hc
    · intro r' hr'
      simp [startOrJoin, hp] at hr' ⊢
      rw [hf, ← hr']
      rfl
  · have hs : startOrJoin s = (s, CallRes.awaiting r) := by
      simp [startOrJoin, hp]
    rw [hs]
    exact h

theorem loaderInv_call (s : LoaderState) (now : Nat) (h : loaderInv s) :
    loaderInv (fetchAllSiteSettings s now).1 := by
  rcases hc : s.cache with _ | ⟨d, ts⟩
  · simpa [fetchAllSiteSettings, hc] using loaderInv_startOrJoin s h
  · by_cases hv : now - ts < CACHE_DURATION
    · simpa [fetchAllSiteSettings, hc, hv] using h
    · simpa [fetchAllSiteSettings, hc, hv] using loaderInv_startOrJoin s h

theorem loaderInv_settle (s : LoaderState) (rid : Nat) (outcome : Option (List Row))
    (now : Nat) (h : loaderInv s) :
    loaderInv (resolveRequest s rid outcome now).1 := by
  by_cases hin : rid ∈ s.inFlight
  · rcases hp : s.pending with _ | r
    · rw [h.1 hp] at hin
      exact absurd hin (List.not_mem_nil rid)
    · have hf : s.inFlight = [r] := h.2 r hp
      rw [hf] at hin
      have : rid = r := by simpa using hin
      subst this
      have herase : s.inFlight.erase rid = [] := by
        rw [hf]
        simp
      rcases outcome with _ | rows
      · constructor
        · intro _
          simp [resolveRequest, hin, hf, herase]
        · intro r' hr'
          simp [resolveRequest, hin, hf] at hr'
      · constructor
        · intro _
          simp [resolveRequest, hin, hf, herase]
        · intro r' hr'
          simp [resolveRequest, hin, hf] at hr'
  · rcases outcome with _ | rows <;> simpa [resolveRequest, hin] using h

theorem loaderInv_trace (es : List LoaderEvent) (s : LoaderState)
    (h : loaderInv s) (hnc : ∀ e ∈ es, e ≠ LoaderEvent.clear) :
    loaderInv (runTrace s es) := by
  induction es generalizing s with
  | nil => exact h
  | cons e es ih =>
    have hstep : loaderInv (loaderStep s e) := by
      cases e with
      | call now => exact loaderInv_call s now h
      | settle rid outcome now => exact loaderInv_settle s rid outcome now h
      | clear => exact absurd rfl (hnc LoaderEvent.clear (List.mem_cons_self _ _))
    exact ih (loaderStep s e) hstep (fun e' he' => hnc e' (List.mem_cons_of_mem _ he'))

theorem loaderInv_length (s : LoaderState) (h : loaderInv s) :
    s.inFlight.length ≤ 1 := by
  rcases hp : s.pending with _ | r
  · rw [h.1 hp]
    decide
  · rw [h.2 r hp]
    simp

theorem cacheMiss_fetch (s : LoaderState) (now : Nat)
    (h : cacheValid s.cache now = false) :
    fetchAllSiteSettings s now = startOrJoin s := by
  rcases hc : s.cache with _ | ⟨d, ts⟩
  · simp [fetchAllSiteSettings, hc]
  · rw [hc] at h
    simp only [cacheValid, decide_eq_false_iff_not] at h
    simp [fetchAllSiteSettings, hc, h]

theorem runCalls_join (s : LoaderState) (ts : List Nat) (r : Nat)
    (hp : s.pending = some r)
    (hm : ∀ u ∈ ts, cacheValid s.cache u = false) :
    runCalls s ts = (s, ts.map (fun _ => CallRes.awaiting r)) := by
  induction ts with
  | nil => rfl
  | cons t ts ih =>
    have h1 : fetchAllSiteSettings s t = (s, CallRes.awaiting r) := by
      rw [cacheMiss_fetch s t (hm t (List.mem_cons_self _ _))]
      simp [startOrJoin, hp]
    have h2 := ih (fun u hu => hm u (List.mem_cons_of_mem _ hu))
    simp [runCalls, h1, h2]

/-- Claim C1 (amended): in every state reachable from module load by
caller invocations and request settlements alone, at most one network
query is outstanding; and K callers arriving while no cached bundle is
valid and nothing has settled produce exactly one network query, with
every caller handed the same single promise (`CallRes.awaiting` of one
shared request id), hence the identical bundle reference on settlement.
The original claim's invariant does not survive `clearSettingsCache`:
clearing while a query is in flight empties the pending slot without
cancelling the query, so the next caller starts a second concurrent
query (see the counterexample). -/
theorem c1_dedup_invariant :
    (∀ es : List LoaderEvent, (∀ e ∈ es, e ≠ LoaderEvent.clear) →
      (runTrace initLoader es).inFlight.length ≤ 1) ∧
    (∀ (s : LoaderState) (t : Nat) (ts : List Nat),
      s.pending = none →
      (∀ u ∈ t :: ts, cacheValid s.cache u = false) →
      (runCalls s (t :: ts)).1.queries = s.queries + 1 ∧
      (runCalls s (t :: ts)).2 = (t :: ts).map (fun _ => CallRes.awaiting s.nextId)) := by
  constructor
  · intro es hnc
    exact loaderInv_length _ (loaderInv_trace es initLoader loaderInv_init hnc)
  · intro s t ts hp hm
    have h1 : fetchAllSiteSettings s t = (startOrJoin s) := by
      exact cacheMiss_fetch s t (hm t (List.mem_cons_self _ _))
    have hso : (startOrJoin s).1.pending = some s.nextId ∧
        (startOrJoin s).1.cache = s.cache ∧
        (startOrJoin s).1.queries = s.queries + 1 ∧
        (startOrJoin s).2 = CallRes.awaiting s.nextId := by
      simp [startOrJoin, hp]
    have hjoin := runCalls_join (startOrJoin s).1 ts s.nextId hso.1
      (fun u hu => by rw [hso.2.1]; exact hm u (List.mem_cons_of_mem _ hu))
    constructor
    · simp [runCalls, h1, hjoin, hso.2.2.1]
    · simp [runCalls, h1, hjoin, hso.2.2.2]

/-- Counterexample to C1 as stated: start a query, clear the cache while
it is in flight, call again — the reachable state has two outstanding
network queries (and the trace issued two queries in total). -/
theorem c1_counterexample :
    (runTrace initLoader [LoaderEvent.call 0, LoaderEvent.clear, LoaderEvent.call 1]).inFlight
      = [0, 1] ∧
    (runTrace initLoader [LoaderEvent.call 0, LoaderEvent.clear, LoaderEvent.call 1]).inFlight.length
      = 2 ∧
    (runTrace initLoader [LoaderEvent.call 0, LoaderEvent.clear, LoaderEvent.call 1]).queries
      = 2 :=
  ⟨rfl, rfl, rfl⟩

/-- Witness for C1: a clear-free trace keeps at most one query in flight,
and three concurrent callers on a cold loader issue exactly one query and
all await request `0`. -/
theorem c1_dedup_invariant_witness :
    (runTrace initLoader [LoaderEvent.call 0, LoaderEvent.call 1,
      LoaderEvent.settle 0 none 5]).inFlight.length ≤ 1 ∧
    (runCalls initLoader [0, 0, 0]).1.queries = 1 ∧
    (runCalls initLoader [0, 0, 0]).2
      = [CallRes.awaiting 0, CallRes.awaiting 0, CallRes.awaiting 0] := by
  refine ⟨c1_dedup_invariant.1 _ (by decide), ?_, ?_⟩
  · exact (c1_dedup_invariant.2 initLoader 0 [0, 0] rfl (fun u _ => rfl)).1
  · exact (c1_dedup_invariant.2 initLoader 0 [0, 0] rfl (fun u _ => rfl)).2

/-- Claim C2 (amended): a call finding a valid cached bundle (age
strictly under five minutes) performs zero network queries and returns
that bundle; a call finding no valid cache *and an empty pending slot* —
in particular the first call after `clearSettingsCache`, which empties
both slots — performs exactly one query; but a call finding no valid
cache while a request is pending joins it and performs zero queries, so
the original claim's "a call made after the age threshold has elapsed
performs exactly one query" fails in that state. -/
theorem c2_ttl (s : LoaderState) (now : Nat) :
    (∀ d ts, s.cache = some (d, ts) → now - ts < CACHE_DURATION →
      fetchAllSiteSettings s now = (s, CallRes.cached d)) ∧
    (cacheValid s.cache now = false → s.pending = none →
      (fetchAllSiteSettings s now).1.queries = s.queries + 1) ∧
    (∀ r, cacheValid s.cache now = false → s.pending = some r →
      fetchAllSiteSettings s now = (s, CallRes.awaiting r)) ∧
    (∀ t, (fetchAllSiteSettings (clearSettingsCache s) t).1.queries = s.queries + 1) := by
  refine ⟨?_, ?_, ?_, ?_⟩
  · intro d ts hc hv
    simp [fetchAllSiteSettings, hc, hv]
  · intro hmiss hp
    rw [cacheMiss_fetch s now hmiss]
    simp [startOrJoin, hp]
  · intro r hmiss hp
    rw [cacheMiss_fetch s now hmiss]
    simp [startOrJoin, hp]
  · intro t
    have hmiss : cacheValid (clearSettingsCache s).cache t = false := rfl
    rw [cacheMiss_fetch (clearSettingsCache s) t hmiss]
    simp [startOrJoin, clearSettingsCache]

/-- Counterexample to C2 as stated: after a successful load at time 0,
the cache has expired by time 300000 and one caller has already started a
fresh query; the next call at 300000 is made after the age threshold has
elapsed yet performs zero network queries (it joins the pending one:
`queries` stays at 2). -/
theorem c2_counterexample :
    (runTrace initLoader [LoaderEvent.call 0, LoaderEvent.settle 0 (some []) 0,
        LoaderEvent.call 300000]).cache = some (parseSettingsFromData [], 0) ∧
    CACHE_DURATION ≤ 300000 - 0 ∧
    (runTrace initLoader [LoaderEvent.call 0, LoaderEvent.settle 0 (some []) 0,
        LoaderEvent.call 300000]).queries = 2 ∧
    (fetchAllSiteSettings (runTrace initLoader [LoaderEvent.call 0,
        LoaderEvent.settle 0 (some []) 0, LoaderEvent.call 300000]) 300000).1.queries
      = 2 :=
  ⟨rfl, by decide, rfl, rfl⟩

/-- Witness for C2: a fresh cache is served with no query; a cold call
and a post-clear call each issue exactly one query. -/
theorem c2_ttl_witness :
    fetchAllSiteSettings sValid 100 = (sValid, CallRes.cached getDefaultSettings) ∧
    (fetchAllSiteSettings initLoader 0).1.queries = 1 ∧
    (fetchAllSiteSettings (clearSettingsCache sValid) 0).1.queries = 2 :=
  ⟨(c2_ttl sValid 100).1 getDefaultSettings 0 rfl (by decide),
   (c2_ttl initLoader 0).2.1 rfl rfl,
   (c2_ttl sValid 0).2.2.2 0⟩

/-- Claim C3: the loader is total (the model functions are), and a failed
settlement — query error or thrown transport error — delivers the
all-defaults bundle (all five group defaults, four empty script
sequences), leaves the cache slot exactly as it was (failures are never
cached), and empties the pending slot, so the next call finding no valid
cache issues a fresh network query instead of serving a cached failure. -/
theorem c3_error_defaults (s : LoaderState) (r : Nat) (now : Nat)
    (hr : r ∈ s.inFlight) :
    (resolveRequest s r none now).2 = getDefaultSettings ∧
    getDefaultSettings.seo = DEFAULT_SEO ∧
    getDefaultSettings.analytics = DEFAULT_ANALYTICS ∧
    getDefaultSettings.general = DEFAULT_GENERAL ∧
    getDefaultSettings.contact = DEFAULT_CONTACT ∧
    getDefaultSettings.social = DEFAULT_SOCIAL ∧
    getDefaultSettings.scripts.head_start = [] ∧
    getDefaultSettings.scripts.head_end = [] ∧
    getDefaultSettings.scripts.body_start = [] ∧
    getDefaultSettings.scripts.body_end = [] ∧
    (resolveRequest s r none now).1.cache = s.cache ∧
    (resolveRequest s r none now).1.pending = none ∧
    (∀ t, cacheValid s.cache t = false →
      (fetchAllSiteSettings (resolveRequest s r none now).1 t).1.queries
        = (resolveRequest s r none now).1.queries + 1) := by
  refine ⟨?_, rfl, rfl, rfl, rfl, rfl, rfl, rfl, rfl, rfl, ?_, ?_, ?_⟩
  · simp [resolveRequest, hr]
  · simp [resolveRequest, hr]
  · simp [resolveRequest, hr]
  · intro t hmiss
    have hc : (resolveRequest s r none now).1.cache = s.cache := by
      simp [resolveRequest, hr]
    have hp : (resolveRequest s r none now).1.pending = none := by
      simp [resolveRequest, hr]
    have hmiss' : cacheValid (resolveRequest s r none now).1.cache t = false := by
      rw [hc]
      exact hmiss
    rw [cacheMiss_fetch _ t hmiss']
    simp [startOrJoin, hp]

/-- Witness for C3: failing the in-flight request of a one-caller loader
delivers the defaults and the next call issues a second query. -/
theorem c3_error_defaults_witness :
    (resolveRequest sPend 0 none 5).2 = getDefaultSettings ∧
    (fetchAllSiteSettings (resolveRequest sPend 0 none 5).1 6).1.queries = 2 := by
  have h := c3_error_defaults sPend 0 5 (by decide)
  refine ⟨h.1, ?_⟩
  have h2 := h.2.2.2.2.2.2.2.2.2.2.2.2 6 rfl
  rw [h2]
  rfl

/-! ### DOM injection lemmas -/

theorem docHasMarker_body_cons (doc : Doc) (el : DomNode) (a v : String)
    (h : docHasMarker doc a v = true) :
    docHasMarker { doc with body := el :: doc.body } a v = true := by
  simp only [docHasMarker, docNodes, List.any_eq_true, List.mem_append,
    List.mem_cons] at h ⊢
  obtain ⟨x, hx, hfx⟩ := h
  rcases hx with hx | hx
  · exact ⟨x, Or.inl hx, hfx⟩
  · exact ⟨x, Or.inr (Or.inr hx), hfx⟩

theorem docHasMarker_body_append (doc : Doc) (el : DomNode) (a v : String)
    (h : docHasMarker doc a v = true) :
    docHasMarker { doc with body := doc.body ++ [el] } a v = true := by
  simp only [docHasMarker, docNodes, List.any_eq_true, List.mem_append,
    List.mem_cons] at h ⊢
  obtain ⟨x, hx, hfx⟩ := h
  rcases hx with hx | hx
  · exact ⟨x, Or.inl hx, hfx⟩
  · exact ⟨x, Or.inr (Or.inl hx), hfx⟩

theorem docHasMarker_mono_body (doc : Doc) (sc : CustomScript) (p : Bool) (a v : String)
    (h : docHasMarker doc a v = true) :
    docHasMarker (injectIntoBody doc sc p) a v = true := by
  unfold injectIntoBody
  split_ifs <;>
    first
      | exact h
      | exact docHasMarker_body_cons doc _ a v h
      | exact docHasMarker_body_append doc _ a v h

theorem injectIntoBody_marks (doc : Doc) (sc : CustomScript) (p : Bool)
    (hv : sc.value ≠ "")
    (htype : sc.setting_type = "script" ∨ sc.setting_type = "custom_html") :
    docHasMarker (injectIntoBody doc sc p) "data-seo-setting" sc.key = true := by
  by_cases hm : docHasMarker doc "data-seo-setting" sc.key = true
  · exact docHasMarker_mono_body doc sc p _ _ hm
  · unfold injectIntoBody
    rw [if_neg hv, if_neg hm]
    rcases htype with ht | ht
    · rw [if_pos ht]
      by_cases hp : p = true <;>
        simp [hp, docHasMarker, docNodes, List.any_eq_true, List.mem_append,
          List.mem_cons, hasAttrVal, getAttr, attrGet, bodyScriptNode]
    · have ht' : ¬sc.setting_type = "script" := by
        rw [ht]
        decide
      rw [if_neg ht', if_pos ht]
      by_cases hp : p = true <;>
        simp [hp, docHasMarker, docNodes, List.any_eq_true, List.mem_append,
          List.mem_cons, hasAttrVal, getAttr, attrGet, bodyHtmlNode]

theorem injectIntoBody_noop (doc : Doc) (sc : CustomScript) (p : Bool)
    (h : sc.value = "" ∨ docHasMarker doc "data-seo-setting" sc.key = true ∨
      (sc.setting_type ≠ "script" ∧ sc.setting_type ≠ "custom_html")) :
    injectIntoBody doc sc p = doc := by
  unfold injectIntoBody
  rcases h with h | h | ⟨h1, h2⟩
  · rw [if_pos h]
  · by_cases hv : sc.value = ""
    · rw [if_pos hv]
    · rw [if_neg hv, if_pos h]
  · by_cases hv : sc.value = ""
    · rw [if_pos hv]
    · by_cases hm : docHasMarker doc "data-seo-setting" sc.key = true
      · rw [if_neg hv, if_pos hm]
      · rw [if_neg hv, if_neg hm, if_neg h1, if_neg h2]

theorem docHasMarker_mono_fold (l : List CustomScript) (p : Bool) (doc : Doc)
    (a v : String) (h : docHasMarker doc a v = true) :
    docHasMarker (l.foldl (fun d sc => injectIntoBody d sc p) doc) a v = true := by
  induction l generalizing doc with
  | nil => exact h
  | cons sc l ih => exact ih _ (docHasMarker_mono_body doc sc p a v h)

theorem fold_marks (l : List CustomScript) (p : Bool) (doc : Doc) (sc : CustomScript)
    (hmem : sc ∈ l) (hv : sc.value ≠ "")
    (htype : sc.setting_type = "script" ∨ sc.setting_type = "custom_html") :
    docHasMarker (l.foldl (fun d s => injectIntoBody d s p) doc)
      "data-seo-setting" sc.key = true := by
  induction l generalizing doc with
  | nil => exact absurd hmem (List.not_mem_nil sc)
  | cons s0 l ih =>
    rcases List.mem_cons.mp hmem with rfl | hmem'
    · exact docHasMarker_mono_fold l p _ _ _ (injectIntoBody_marks doc sc p hv htype)
    · exact ih (injectIntoBody doc s0 p) hmem'

theorem fold_noop (l : List CustomScript) (p : Bool) (doc : Doc)
    (h : ∀ sc ∈ l, sc.value = "" ∨ docHasMarker doc "data-seo-setting" sc.key = true ∨
      (sc.setting_type ≠ "script" ∧ sc.setting_type ≠ "custom_html")) :
    l.foldl (fun d s => injectIntoBody d s p) doc = doc := by
  induction l with
  | nil => rfl
  | cons s0 l ih =>
    have h0 := injectIntoBody_noop doc s0 p (h s0 (List.mem_cons_self _ _))
    rw [List.foldl_cons, h0]
    exact ih (fun sc hsc => h sc (List.mem_cons_of_mem _ hsc))

theorem scriptNode_id (i c : String) (src : Option String) (asy : Bool) :
    hasAttrVal (scriptNode i c src asy) "id" i = true := by
  rcases src with _ | s
  · simp [scriptNode, hasAttrVal, getAttr, attrGet]
  · cases asy <;> simp [scriptNode, hasAttrVal, getAttr, attrGet]

theorem injectScript_found (doc : Doc) (i c : String) (src : Option String)
    (asy : Bool) (h : docHasId doc i = true) :
    injectScript doc i c src asy = doc := by
  unfold injectScript
  rw [if_pos h]

theorem docHasId_injectScript (doc : Doc) (i c : String) (src : Option String)
    (asy : Bool) (h : docHasId doc i = false) :
    docHasId (injectScript doc i c src asy) i = true := by
  unfold injectScript
  rw [if_neg (by rw [h]; decide : ¬docHasId doc i = true)]
  simp only [docHasId, docNodes, List.any_eq_true, List.mem_append, List.mem_cons,
    List.mem_singleton]
  exact ⟨scriptNode i c src asy, Or.inl (Or.inr (Or.inl rfl)), scriptNode_id i c src asy⟩

/-- Claim C8 (amended): body placement follows the injection point —
`body_start` items are inserted before the body's first child and
`body_end` items are appended as its last child; head items are appended
to the head for *both* `head_start` and `head_end` (`injectIntoHead`
only ever calls `appendChild`, so `head_start` is *not* prepended, contrary
to the original claim's `*_start ⇒ prepend` rule). -/
theorem c8_placement (parseHtml : String → List DomNode) (doc : Doc)
    (sc : CustomScript) :
    (sc.value ≠ "" → docHasMarker doc "data-seo-setting" sc.key = false →
      (sc.setting_type = "script" ∨ sc.setting_type = "custom_html") →
      (injectBodyScripts doc
          { head_start := [], head_end := [], body_start := [sc], body_end := [] }).body
        = bodyInjectedNode sc :: doc.body ∧
      (injectBodyScripts doc
          { head_start := [], head_end := [], body_start := [], body_end := [sc] }).body
        = doc.body ++ [bodyInjectedNode sc]) ∧
    (sc.value ≠ "" → docHasMarker doc "data-head-setting" sc.key = false →
      (sc.setting_type = "meta_tag" ∨ sc.setting_type = "custom_html") →
      (injectHeadScripts parseHtml doc
          { head_start := [sc], head_end := [], body_start := [], body_end := [] }).head
        = doc.head ++ taggedChildren parseHtml sc ∧
      (injectHeadScripts parseHtml doc
          { head_start := [], head_end := [sc], body_start := [], body_end := [] }).head
        = doc.head ++ taggedChildren parseHtml sc) := by
  constructor
  · intro hv hm ht
    have hm' : ¬docHasMarker doc "data-seo-setting" sc.key = true := by
      rw [hm]
      decide
    rcases ht with ht | ht
    · have hn : bodyInjectedNode sc = bodyScriptNode sc := by
        unfold bodyInjectedNode
        rw [if_pos ht]
      rw [hn]
      constructor
      · show (injectIntoBody doc sc true).body = _
        unfold injectIntoBody
        rw [if_neg hv, if_neg hm', if_pos ht]
        simp
      · show (injectIntoBody doc sc false).body = _
        unfold injectIntoBody
        rw [if_neg hv, if_neg hm', if_pos ht]
        simp
    · have hts : ¬sc.setting_type = "script" := by
        rw [ht]
        decide
      have hn : bodyInjectedNode sc = bodyHtmlNode sc := by
        unfold bodyInjectedNode
        rw [if_neg hts]
      rw [hn]
      constructor
      · show (injectIntoBody doc sc true).body = _
        unfold injectIntoBody
        rw [if_neg hv, if_neg hm', if_neg hts, if_pos ht]
        simp
      · show (injectIntoBody doc sc false).body = _
        unfold injectIntoBody
        rw [if_neg hv, if_neg hm', if_neg hts, if_pos ht]
        simp
  · intro hv hm ht
    have hm' : ¬docHasMarker doc "data-head-setting" sc.key = true := by
      rw [hm]
      decide
    constructor
    · show (injectIntoHead parseHtml doc sc).head = _
      unfold injectIntoHead
      rw [if_neg hv, if_neg hm', if_pos ht]
    · show (injectIntoHead parseHtml doc sc).head = _
      unfold injectIntoHead
      rw [if_neg hv, if_neg hm', if_pos ht]

/-- Counterexample to C8 as stated: a `head_start` item injected into a
head whose first child is `titleNode` ends up *after* it — appended as the
last child, not prepended before the first. -/
theorem c8_counterexample :
    hsScript.injection_point = "head_start" ∧
    (injectHeadScripts oneMetaHtml pageDoc
        { head_start := [hsScript], head_end := [], body_start := [], body_end := [] }).head
      = [titleNode, k1Meta] ∧
    (injectHeadScripts oneMetaHtml pageDoc
        { head_start := [hsScript], head_end := [], body_start := [], body_end := [] }).head.head?
      = some titleNode :=
  ⟨rfl, rfl, rfl⟩

/-- Witness for C8: concrete body prepend/append for both injectable
kinds (`script` and `custom_html`) and head append. -/
theorem c8_placement_witness :
    (injectBodyScripts pageDoc
        { head_start := [], head_end := [], body_start := [bwit], body_end := [] }).body
      = [bodyScriptNode bwit, paraNode] ∧
    (injectBodyScripts pageDoc
        { head_start := [], head_end := [], body_start := [], body_end := [bwit] }).body
      = [paraNode, bodyScriptNode bwit] ∧
    (injectBodyScripts pageDoc
        { head_start := [], head_end := [], body_start := [hwit], body_end := [] }).body
      = [bodyHtmlNode hwit, paraNode] ∧
    (injectBodyScripts pageDoc
        { head_start := [], head_end := [], body_start := [], body_end := [hwit] }).body
      = [paraNode, bodyHtmlNode hwit] ∧
    (injectHeadScripts oneMetaHtml pageDoc
        { head_start := [], head_end := [hsScript], body_start := [], body_end := [] }).head
      = [titleNode, k1Meta] := by
  have hb := (c8_placement oneMetaHtml pageDoc bwit).1 (by decide) rfl (Or.inl rfl)
  have hc := (c8_placement oneMetaHtml pageDoc hwit).1 (by decide) rfl (Or.inr rfl)
  have hh := (c8_placement oneMetaHtml pageDoc hsScript).2 (by decide) rfl (Or.inl rfl)
  refine ⟨?_, ?_, ?_, ?_, hh.2⟩
  · rw [hb.1]
    rfl
  · rw [hb.2]
    rfl
  · rw [hc.1]
    rfl
  · rw [hc.2]
    rfl

/-- Claim C9: injection is idempotent — `injectScript` (Analytics) keyed
by element id, and the body-injection effect of `SEOInjector` keyed by the
`data-seo-setting` marker, are both no-ops on their second invocation, and
an injectable script yields exactly one marked DOM node even after two
invocations. -/
theorem c9_idempotent :
    (∀ (doc : Doc) (i c : String) (src : Option String) (asy : Bool),
      injectScript (injectScript doc i c src asy) i c src asy
        = injectScript doc i c src asy) ∧
    (∀ (doc : Doc) (scripts : Scripts),
      injectBodyScripts (injectBodyScripts doc scripts) scripts
        = injectBodyScripts doc scripts) ∧
    (∀ (doc : Doc) (sc : CustomScript) (p : Bool),
      sc.value ≠ "" → sc.setting_type = "script" →
      docHasMarker doc "data-seo-setting" sc.key = false →
      ((docNodes (injectIntoBody (injectIntoBody doc sc p) sc p)).countP
          (fun n => hasAttrVal n "data-seo-setting" sc.key)) = 1) := by
  refine ⟨?_, ?_, ?_⟩
  · intro doc i c src asy
    by_cases h : docHasId doc i = true
    · rw [injectScript_found doc i c src asy h, injectScript_found doc i c src asy h]
    · have h' : docHasId doc i = false := by
        revert h
        cases docHasId doc i <;> simp
      exact injectScript_found _ i c src asy (docHasId_injectScript doc i c src asy h')
  · intro doc scripts
    have hmarks : ∀ sc, sc ∈ scripts.body_start ∨ sc ∈ scripts.body_end →
        sc.value = "" ∨
        docHasMarker (injectBodyScripts doc scripts) "data-seo-setting" sc.key = true ∨
        (sc.setting_type ≠ "script" ∧ sc.setting_type ≠ "custom_html") := by
      intro sc hmem
      by_cases hv : sc.value = ""
      · exact Or.inl hv
      by_cases ht : sc.setting_type = "script" ∨ sc.setting_type = "custom_html"
      · refine Or.inr (Or.inl ?_)
        unfold injectBodyScripts
        rcases hmem with hmem | hmem
        · exact docHasMarker_mono_fold _ false _ _ _
            (fold_marks _ true doc sc hmem hv ht)
        · exact fold_marks _ false _ sc hmem hv ht
      · push_neg at ht
        exact Or.inr (Or.inr ht)
    show injectBodyScripts (injectBodyScripts doc scripts) scripts
      = injectBodyScripts doc scripts
    conv_lhs => rw [injectBodyScripts]
    rw [fold_noop _ true _ (fun sc hsc => hmarks sc (Or.inl hsc)),
      fold_noop _ false _ (fun sc hsc => hmarks sc (Or.inr hsc))]
  · intro doc sc p hv ht hm
    have hm' : ¬docHasMarker doc "data-seo-setting" sc.key = true := by
      rw [hm]
      decide
    have h1 : docHasMarker (injectIntoBody doc sc p) "data-seo-setting" sc.key = true :=
      injectIntoBody_marks doc sc p hv (Or.inl ht)
    rw [injectIntoBody_noop (injectIntoBody doc sc p) sc p (Or.inr (Or.inl h1))]
    have hzero : ∀ n ∈ docNodes doc, ¬hasAttrVal n "data-seo-setting" sc.key = true := by
      intro n hn hcontra
      have : docHasMarker doc "data-seo-setting" sc.key = true := by
        simp only [docHasMarker, List.any_eq_true]
        exact ⟨n, hn, hcontra⟩
      rw [hm] at this
      exact Bool.noConfusion this
    have hhead : (doc.head.countP (fun n => hasAttrVal n "data-seo-setting" sc.key)) = 0 := by
      rw [List.countP_eq_zero]
      intro n hn
      exact hzero n (by simp [docNodes, List.mem_append, hn])
    have hbody : (doc.body.countP (fun n => hasAttrVal n "data-seo-setting" sc.key)) = 0 := by
      rw [List.countP_eq_zero]
      intro n hn
      exact hzero n (by simp [docNodes, List.mem_append, hn])
    have hel : hasAttrVal (bodyScriptNode sc) "data-seo-setting" sc.key = true := by
      simp [bodyScriptNode, hasAttrVal, getAttr, attrGet]
    unfold injectIntoBody
    rw [if_neg hv, if_neg hm', if_pos ht]
    by_cases hp : p = true <;>
      simp [hp, docNodes, List.countP_append, List.countP_cons, hhead, hbody, hel]

/-- Witness for C9 on concrete inputs: double analytics injection keeps a
single `ga4-loader` node, and double body injection keeps exactly one
marked node. -/
theorem c9_idempotent_witness :
    injectScript (injectScript emptyDoc "ga4-loader" "" (some "https://g") true)
        "ga4-loader" "" (some "https://g") true
      = injectScript emptyDoc "ga4-loader" "" (some "https://g") true ∧
    injectBodyScripts (injectBodyScripts pageDoc
        { head_start := [], head_end := [], body_start := [bwit], body_end := [] })
        { head_start := [], head_end := [], body_start := [bwit], body_end := [] }
      = injectBodyScripts pageDoc
        { head_start := [], head_end := [], body_start := [bwit], body_end := [] } ∧
    ((docNodes (injectIntoBody (injectIntoBody pageDoc bwit true) bwit true)).countP
        (fun n => hasAttrVal n "data-seo-setting" bwit.key)) = 1 :=
  ⟨c9_idempotent.1 emptyDoc "ga4-loader" "" (some "https://g") true,
   c9_idempotent.2.1 pageDoc
     { head_start := [], head_end := [], body_start := [bwit], body_end := [] },
   c9_idempotent.2.2 pageDoc bwit true (by decide) rfl rfl⟩

end SKWeb
